import Mathlib

namespace ZenApp

/-- Python `str.lower` restricted to ASCII letters; the Vietnamese keyword
patterns in the source are already lowercase, and all inputs considered in
the development are lowercase or ASCII. -/
def lowerChar (c : Char) : Char :=
  if 65 ≤ c.toNat ∧ c.toNat ≤ 90 then Char.ofNat (c.toNat + 32) else c

def strLower (s : String) : String := ⟨s.data.map lowerChar⟩

/-- Does `hay` start with `pat`? -/
def startsWithList : List Char → List Char → Bool
  | _, [] => true
  | [], _ :: _ => false
  | a :: as, b :: bs => a == b && startsWithList as bs

/-- Does `pat` occur anywhere in `hay` (Python `pat in hay`)? -/
def containsList : List Char → List Char → Bool
  | hay, pat =>
    match hay with
    | [] => pat.isEmpty
    | _ :: rest => startsWithList hay pat || containsList rest pat

/-- Python `pat in s` (substring containment). -/
def containsSub (pat s : String) : Bool := containsList s.data pat.data

/-- Python `any(kw in s for kw in kws)`. -/
def anySub (kws : List String) (s : String) : Bool := kws.any fun p => containsSub p s

/-- Python `re` word character (`\w`): ASCII alphanumerics, underscore; all
non-ASCII code points are treated as word characters (this covers the
Vietnamese letters occurring in the patterns; Unicode has a few non-ASCII
non-word characters, none of which occur in the keyword patterns). -/
def isWordChar (c : Char) : Bool := c.isAlphanum || c == '_' || 127 < c.toNat

/-- If `hay` starts with `pat`, return the remainder of `hay`. -/
def dropPat : List Char → List Char → Option (List Char)
  | hay, [] => some hay
  | [], _ :: _ => none
  | a :: as, b :: bs => if a == b then dropPat as bs else none

/-- Matching `\b` at the end of a match: the next character, if any, is not a word
character. -/
def boundaryAfter : List Char → Bool
  | [] => true
  | c :: _ => !isWordChar c

/-- Does some alternative of the pattern, flanked by `\b` word boundaries,
match starting at some position of `hay`?  `prevOk` records whether the
character preceding the current position is absent or a non-word character.
Every alternative in the source's patterns begins and ends with a word
character, so this models `re.search(r"\b(a1|a2|...)\b", hay)`. -/
def wordSearchFrom (prevOk : Bool) (hay : List Char) (pat : List Char) : Bool :=
  match hay with
  | [] => false
  | c :: rest =>
    (prevOk && (match dropPat hay pat with
                | some r => boundaryAfter r
                | none => false))
    || wordSearchFrom (!isWordChar c) rest pat

/-- Models `re.search` of an alternation of word-bounded phrases against `s`. -/
def reSearch (alts : List String) (s : String) : Bool :=
  alts.any fun w => wordSearchFrom true s.data w.data

/-! ## Signal patterns (suggestion_engine.py, classes *Signals)

Each Python pattern `r"\b(a1|a2|...)\b"` is modelled as its list of
alternatives; `x'?y` is expanded into its two alternatives. -/

def SLEEP_ISSUES : List String :=
  ["không ngủ", "mất ngủ", "ngủ không được", "insomnia", "can\x27t sleep",
   "cant sleep", "thức suốt đêm"]

def ANXIETY_PHYSICAL : List String :=
  ["tim đập", "hồi hộp", "panic", "lo âu", "anxiety", "anxious"]

def BREATHING_ISSUES : List String :=
  ["thở không ra", "nghẹt thở", "chest tight", "khó thở", "hụt hơi"]

def PAIN : List String := ["đầu đau", "headache", "migraine", "nhức đầu"]

def FATIGUE : List String := ["mệt", "exhausted", "kiệt sức", "tired", "mệt mỏi", "uể oải"]

def OVERWHELM : List String :=
  ["lộn xộn", "overwhelmed", "quá nhiều", "too much", "choáng ngợp", "không kham nổi"]

def OVERTHINKING : List String :=
  ["nghĩ mãi", "overthink", "không ngừng nghĩ", "suy nghĩ quá nhiều", "ruminate"]

def RACING_THOUGHTS : List String :=
  ["đầu óc chạy", "mind racing", "thoughts racing", "ý nghĩ bay"]

def WORK_STRESS : List String :=
  ["deadline", "sếp", "boss", "công việc", "meeting", "presentation", "dự án"]

def SOCIAL_CONFLICT : List String :=
  ["cãi", "tranh cãi", "mắng", "argue", "conflict", "criticized"]

def REFUSAL : List String :=
  ["thôi", "không muốn nói", "don\x27t want to talk", "dont want to talk",
   "chưa", "để sau", "not now"]

def SHUTDOWN : List String := ["mệt rồi", "đủ rồi", "enough", "stop"]

def MUSIC : List String := ["nhạc", "music", "nghe", "listen", "âm thanh", "sound"]

def BREATHING : List String := ["thở", "breath", "hít thở", "breathing"]

def ROUTINE : List String := ["routine", "liệu trình", "tập"]

def JOURNALING : List String := ["viết", "write", "journal", "nhật ký", "ghi chép", "diary"]

/-! ## Data model -/

/-- Python `UserNeeds` dataclass: the five-dimensional needs vector. -/
structure UserNeeds where
  need_calming : ℚ := 0
  need_distraction : ℚ := 0
  need_activation : ℚ := 0
  need_processing : ℚ := 0
  urgency : ℚ := 0
deriving DecidableEq, Repr

/-- Python `ActivityProfile` dataclass (catalog entry). -/
structure ActivityProfile where
  id : String
  name : String
  name_vi : String
  duration : ℕ
  description : String
  description_vi : String
  icon : String
  visual_style : String
  action_text : String
  card_title : String
  route_path : String
  provides_calming : ℚ
  provides_distraction : ℚ
  provides_activation : ℚ
  provides_processing : ℚ
  commitment_level : ℕ
  immediacy : ℚ
  requires_talking : Bool
  energy_required : String
  base_priority : ℕ
  good_for_emotions : List String
deriving DecidableEq, Repr

/-- The affect reading: `emotion_data.get("emotion_state", "neutral")` and
`emotion_data.get("energy_level", 5)`. -/
structure EmotionData where
  emotion_state : String := "neutral"
  energy_level : ℤ := 5
deriving DecidableEq, Repr

/-- Python `ConversationContext` dataclass. -/
structure ConversationContext where
  turn_count : ℕ := 0
  last_assistant_message : String := ""
  suggested_activities : List String := []
  has_suggested_in_session : Bool := false
deriving DecidableEq, Repr

/-- Python `ConversationContext.add_suggestion`. -/
def add_suggestion (ctx : ConversationContext) (activity_id : String) : ConversationContext :=
  { ctx with
    suggested_activities := ctx.suggested_activities ++ [activity_id]
    has_suggested_in_session := true }

/-- Python `ConversationContext.was_recently_suggested` (Python `l[-window:]` is
`drop (length - window)`). -/
def was_recently_suggested (ctx : ConversationContext) (activity_id : String)
    (window : ℕ := 3) : Bool :=
  if ctx.suggested_activities.length < window then
    ctx.suggested_activities.contains activity_id
  else
    (ctx.suggested_activities.drop (ctx.suggested_activities.length - window)).contains
      activity_id

/-! ## Activity database (`ACTIVITIES`): a Python dict with insertion order,
modelled as an association list in declaration order. -/

def breathingActivity : ActivityProfile :=
  { id := "breathing", name := "Breathing exercise", name_vi := "Bài tập hít thở"
    duration := 1
    description := "Slow your breath for 1 minute."
    description_vi := "Thở chậm trong 1 phút."
    icon := "🌬️", visual_style := "gradient-pink-purple"
    action_text := "Try it →", card_title := "🌸 Breathing exercise"
    route_path := "/activity/breathing"
    provides_calming := 0.9, provides_distraction := 0.3
    provides_activation := 0.1, provides_processing := 0.4
    commitment_level := 1, immediacy := 0.95, requires_talking := false
    energy_required := "low", base_priority := 10
    good_for_emotions := ["anxious", "stressed", "overwhelmed"] }

def releaseStressActivity : ActivityProfile :=
  { id := "release_stress", name := "Release stress", name_vi := "Giải tỏa căng thẳng"
    duration := 5
    description := "Name one word. Watch it fade."
    description_vi := "Nói một từ. Để nó tan dần."
    icon := "🌊", visual_style := "gradient-purple-blue"
    action_text := "Try it →", card_title := "🌊 Release stress"
    route_path := "/activity/breathing"
    provides_calming := 0.6, provides_distraction := 0.5
    provides_activation := 0.3, provides_processing := 0.8
    commitment_level := 2, immediacy := 0.7, requires_talking := true
    energy_required := "low", base_priority := 9
    good_for_emotions := ["stressed", "sad", "angry"] }

def restSoundsActivity : ActivityProfile :=
  { id := "rest_sounds", name := "Rest Sounds", name_vi := "Âm thanh thư giãn"
    duration := 20
    description := "Gentle sounds to help you rest."
    description_vi := "Âm thanh nhẹ nhàng giúp bạn nghỉ ngơi."
    icon := "🎶", visual_style := "gradient-soft-blue"
    action_text := "Play →", card_title := "🎶 Rest Sounds"
    route_path := "/activity/music"
    provides_calming := 0.8, provides_distraction := 0.7
    provides_activation := 0.0, provides_processing := 0.2
    commitment_level := 1, immediacy := 0.9, requires_talking := false
    energy_required := "very_low", base_priority := 8
    good_for_emotions := ["tired", "overwhelmed", "refuse"] }

def healingStudioActivity : ActivityProfile :=
  { id := "healing_studio", name := "Healing Studio", name_vi := "Studio chữa lành"
    duration := 15
    description := "Less talk.... more action. / Lo-fi..."
    description_vi := "Ít nói... nhiều hành động hơn."
    icon := "🎵", visual_style := "gradient-dark-blue"
    action_text := "Listen →", card_title := "🎵 Healing Studio"
    route_path := "/activity/music"
    provides_calming := 0.7, provides_distraction := 0.8
    provides_activation := 0.2, provides_processing := 0.3
    commitment_level := 2, immediacy := 0.8, requires_talking := false
    energy_required := "low", base_priority := 7
    good_for_emotions := ["refuse", "tired", "stressed"] }

def healingRoutineActivity : ActivityProfile :=
  { id := "healing_routine", name := "Healing Routine", name_vi := "Liệu trình chữa lành"
    duration := 10
    description := "A small practice, carried gently."
    description_vi := "Thực hành nhẹ nhàng."
    icon := "🌸", visual_style := "gradient-purple-pink"
    action_text := "Continue →", card_title := "🌸 Healing Routine"
    route_path := "/activity/routine"
    provides_calming := 0.7, provides_distraction := 0.4
    provides_activation := 0.5, provides_processing := 0.9
    commitment_level := 4, immediacy := 0.3, requires_talking := false
    energy_required := "medium", base_priority := 5
    good_for_emotions := ["calm", "happy"] }

def journalingActivity : ActivityProfile :=
  { id := "journaling", name := "Journaling", name_vi := "Viết nhật ký"
    duration := 10
    description := "Write down what\x27s on your mind."
    description_vi := "Viết ra những gì bạn đang nghĩ."
    icon := "📝", visual_style := "gradient-warm-orange"
    action_text := "Start writing →", card_title := "📝 Journaling"
    route_path := "/activity/journaling"
    provides_calming := 0.6, provides_distraction := 0.4
    provides_activation := 0.2, provides_processing := 0.95
    commitment_level := 3, immediacy := 0.5, requires_talking := false
    energy_required := "medium", base_priority := 6
    good_for_emotions := ["sad", "frustrated", "overwhelmed", "anxious"] }

/-- The `ACTIVITIES` dict: insertion-ordered, keyed by activity id. -/
def ACTIVITIES : List (String × ActivityProfile) :=
  [("breathing", breathingActivity),
   ("release_stress", releaseStressActivity),
   ("rest_sounds", restSoundsActivity),
   ("healing_studio", healingStudioActivity),
   ("healing_routine", healingRoutineActivity),
   ("journaling", journalingActivity)]

/-- Dict lookup `ACTIVITIES[act_id]` / `act_id in ACTIVITIES`. -/
def lookupActivity (act_id : String) : Option ActivityProfile :=
  (ACTIVITIES.find? (fun p => p.1 == act_id)).map Prod.snd

/-! ## ContextAnalyzer.analyze_user_needs -/

/-- Python clamp `min(1.0, max(0.0, x))`. -/
def clamp01 (x : ℚ) : ℚ := min 1 (max 0 x)

/-- Body of `analyze_user_needs` with Layer 6's time test
`22 <= current_hour or current_hour <= 6` hoisted into the boolean `night`.
Each field is the sum of the source's sequential `+=` contributions, in
source order, followed by the final clamp. -/
def analyzeWithNight (user_message : String) (emotion_data : EmotionData)
    (night : Bool) : UserNeeds :=
  let m := strLower user_message
  let emotion := emotion_data.emotion_state
  let energy := emotion_data.energy_level
  let calming :=
    (if reSearch SLEEP_ISSUES m then 0.4 else 0)
    + (if reSearch ANXIETY_PHYSICAL m then 0.5 else 0)
    + (if reSearch BREATHING_ISSUES m then 0.6 else 0)
    + (if reSearch PAIN m then 0.3 else 0)
    + (if reSearch FATIGUE m then 0.3 else 0)
    + (if reSearch OVERWHELM m then 0.4 else 0)
    + (if reSearch OVERTHINKING m then 0.3 else 0)
    + (if reSearch RACING_THOUGHTS m then 0.4 else 0)
    + (if emotion ∈ ["anxious", "stressed", "overwhelmed"] then
         0.5 + (if energy ≤ 4 then 0.3 else 0) else 0)
    + (if emotion ∈ ["angry", "frustrated"] then (if energy ≥ 7 then 0 else 0.3) else 0)
    + (if reSearch SHUTDOWN m then 0.4 else 0)
    + (if night && decide (emotion ∈ ["anxious", "stressed"]) then 0.3 else 0)
    + (if night && reSearch SLEEP_ISSUES m then 0.4 else 0)
  let distraction :=
    (if reSearch PAIN m then 0.3 else 0)
    + (if reSearch FATIGUE m then 0.2 else 0)
    + (if reSearch OVERWHELM m then 0.5 else 0)
    + (if reSearch OVERTHINKING m then 0.6 else 0)
    + (if reSearch RACING_THOUGHTS m then 0.5 else 0)
    + (if emotion ∈ ["sad", "depressed"] then 0.3 else 0)
    + (if emotion == "refuse" then 0.6 else 0)
    + (if reSearch WORK_STRESS m then 0.3 else 0)
    + (if reSearch REFUSAL m then 0.5 else 0)
    + (if reSearch SHUTDOWN m then 0.6 else 0)
  let activation :=
    (if emotion ∈ ["angry", "frustrated"] then (if energy ≥ 7 then 0.6 else 0) else 0)
    + (if reSearch SOCIAL_CONFLICT m then (if energy ≥ 6 then 0.3 else 0) else 0)
  let processing :=
    (if emotion ∈ ["sad", "depressed"] then 0.4 else 0)
    + (if emotion ∈ ["angry", "frustrated"] then 0.5 else 0)
    + (if emotion == "refuse" then -0.3 else 0)
    + (if reSearch SOCIAL_CONFLICT m then 0.4 else 0)
    + (if reSearch REFUSAL m then -0.4 else 0)
  let urgency :=
    (if reSearch SLEEP_ISSUES m then 0.3 else 0)
    + (if reSearch ANXIETY_PHYSICAL m then 0.4 else 0)
    + (if reSearch BREATHING_ISSUES m then 0.5 else 0)
    + (if reSearch OVERWHELM m then 0.3 else 0)
    + (if emotion ∈ ["anxious", "stressed", "overwhelmed"] then
         0.3 + (if energy ≤ 4 then 0.2 else 0) else 0)
    + (if reSearch WORK_STRESS m then 0.2 else 0)
    + (if night && reSearch SLEEP_ISSUES m then 0.3 else 0)
  { need_calming := clamp01 calming
    need_distraction := clamp01 distraction
    need_activation := clamp01 activation
    need_processing := clamp01 processing
    urgency := clamp01 urgency }

/-- Python `ContextAnalyzer.analyze_user_needs`; `current_hour` is the hour used
(either the caller's argument or, in `getSuggestedActivity`, the wall
clock's `datetime.now().hour`). -/
def analyze_user_needs (user_message : String) (emotion_data : EmotionData)
    (current_hour : ℕ) : UserNeeds :=
  analyzeWithNight user_message emotion_data (decide (22 ≤ current_hour) || decide (current_hour ≤ 6))

/-! ## SmartActivitySelector -/

/-- Python `SmartActivitySelector._calculate_match_score`, as the source's sequence
of updates to `score`. -/
def calculate_match_score (activity : ActivityProfile) (needs : UserNeeds)
    (context : ConversationContext) : ℚ :=
  let s0 : ℚ := 0
  let s1 := s0 + (if needs.need_calming > 0.3 then
    needs.need_calming * activity.provides_calming * 100 else 0)
  let s2 := s1 + (if needs.need_distraction > 0.3 then
    needs.need_distraction * activity.provides_distraction * 80 else 0)
  let s3 := s2 + (if needs.need_activation > 0.3 then
    needs.need_activation * activity.provides_activation * 70 else 0)
  let s4 := s3 + (if needs.need_processing > 0.3 then
    needs.need_processing * activity.provides_processing * 60 else 0)
  let s5 := if needs.urgency > 0.6 then
    s4 * (1 + activity.immediacy * 0.5) - activity.commitment_level * 15 else s4
  let s6 := if context.turn_count < 5 then s5 - activity.commitment_level * 10 else s5
  let s7 := if needs.need_distraction > 0.7 && activity.requires_talking then s6 - 20 else s6
  let s8 := if was_recently_suggested context activity.id 3 then s7 - 30 else s7
  let s9 := s8 + activity.base_priority
  max 0 s9

/-- Payload shape of `SmartActivitySelector._format_activity`. -/
structure FormattedActivity where
  activity_type : String
  card_title : String
  description : String
  duration : ℕ
  action_text : String
  visual_style : String
  icon : String
  name : String
  route_path : String
deriving DecidableEq, Repr

/-- Python `SmartActivitySelector._format_activity`. -/
def format_activity (activity : ActivityProfile) (language : String) : FormattedActivity :=
  { activity_type := activity.id
    card_title := activity.card_title
    description := if language == "vi" then activity.description_vi else activity.description
    duration := activity.duration
    action_text := activity.action_text
    visual_style := activity.visual_style
    icon := activity.icon
    name := if language == "vi" then activity.name_vi else activity.name
    route_path := activity.route_path }

/-- The source's loop `for act_id in ids: if act_id in ACTIVITIES:
context.add_suggestion(act_id); return format(...)` — first id present in
the catalog wins; `none` when no id is present (control falls through). -/
def suggestFirst (ids : List String) (context : ConversationContext)
    (language : String) : Option (FormattedActivity × ConversationContext) :=
  match ids with
  | [] => none
  | i :: rest =>
    match lookupActivity i with
    | some a => some (format_activity a language, add_suggestion context i)
    | none => suggestFirst rest context language

def agreement_keywords : List String :=
  ["yes", "ok", "okay", "yeah", "sure", "có", "được", "ừ", "uhm"]

/-- PRIORITY 0 of `select_best_activity`: continuation of the previous
assistant offer when the user agrees. -/
def tier1 (msg_lower : String) (context : ConversationContext)
    (language : String) : Option (FormattedActivity × ConversationContext) :=
  if anySub agreement_keywords msg_lower then
    let last_msg := strLower context.last_assistant_message
    (if anySub ["nhạc", "music", "nghe", "listen", "âm thanh", "sound", "lo-fi", "lofi"] last_msg then
       suggestFirst ["healing_studio", "rest_sounds"] context language else none).orElse fun _ =>
    (if anySub ["thở", "breath", "breathing", "hít thở"] last_msg then
       suggestFirst ["breathing", "release_stress"] context language else none).orElse fun _ =>
    (if anySub ["viết", "write", "journal", "nhật ký", "ghi chép"] last_msg then
       suggestFirst ["journaling"] context language else none).orElse fun _ =>
    (if anySub ["routine", "liệu trình", "practice", "thực hành"] last_msg then
       suggestFirst ["healing_routine"] context language else none)
  else none

/-- PRIORITY 1 of `select_best_activity`: explicit intent.  The source
checks only `MUSIC`, `BREATHING` and `JOURNALING` here; the `ROUTINE`
pattern of `ExplicitIntentSignals` is never consulted. -/
def tier2 (msg_lower : String) (context : ConversationContext)
    (language : String) : Option (FormattedActivity × ConversationContext) :=
  (if reSearch MUSIC msg_lower then
     suggestFirst ["healing_studio", "rest_sounds"] context language else none).orElse fun _ =>
  (if reSearch BREATHING msg_lower then
     suggestFirst ["breathing", "release_stress"] context language else none).orElse fun _ =>
  (if reSearch JOURNALING msg_lower then
     suggestFirst ["journaling"] context language else none)

/-- Head of the stable descending sort
`scored.sort(reverse=True, key score); scored[0]`: Python's sort is stable,
so the head is the first list element attaining the maximal score. -/
def pickBest : List (ℚ × ActivityProfile) → Option (ℚ × ActivityProfile)
  | [] => none
  | x :: xs => some (xs.foldl (fun b y => if y.1 > b.1 then y else b) x)

/-- PRIORITY 2 of `select_best_activity`: need-based scoring over the
catalog, keeping entries with positive score, then the stable descending
sort's head. -/
def tier3 (user_needs : UserNeeds) (context : ConversationContext)
    (language : String) : Option FormattedActivity × ConversationContext :=
  let scored := ACTIVITIES.filterMap fun p =>
    let score := calculate_match_score p.2 user_needs context
    if score > 0 then some (score, p.2) else none
  match pickBest scored with
  | none => (none, context)
  | some best =>
    (some (format_activity best.2 language), add_suggestion context best.2.id)

/-- Python `SmartActivitySelector.select_best_activity`.  The Python method
mutates `context`; here it returns the selection together with the
resulting context. -/
def select_best_activity (user_message : String) (user_needs : UserNeeds)
    (context : ConversationContext) (language : String) :
    Option FormattedActivity × ConversationContext :=
  let msg_lower := strLower user_message
  match tier1 msg_lower context language with
  | some (f, c) => (some f, c)
  | none =>
    match tier2 msg_lower context language with
    | some (f, c) => (some f, c)
    | none => tier3 user_needs context language

/-! ## Timing logic and public API -/

def explicit_keywords : List String :=
  ["nhạc", "music", "nghe", "listen", "thở", "breath", "hít thở", "breathing",
   "routine", "liệu trình", "tập", "exercise", "viết", "write", "journal", "nhật ký"]

def invitation_keywords : List String :=
  ["would you like", "có muốn", "bạn thử", "we can try",
   "would a", "có giúp", "help right now", "giúp được không", "muốn thử",
   "để mình", "mình có thể", "bạn có muốn"]

/-- Python `shouldSuggestActivity`. -/
def shouldSuggestActivity (_emotionData : EmotionData) (messageContent : String)
    (conversationTurnCount : ℕ := 0) (lastAssistantMessage : String := "")
    (context : Option ConversationContext := none) : Bool :=
  if conversationTurnCount ≤ 1 then
    false
  else
    let msg_lower := strLower messageContent
    if anySub explicit_keywords msg_lower then
      true
    else if (context.map (·.has_suggested_in_session)).getD false then
      false
    else
      anySub invitation_keywords (strLower lastAssistantMessage)
        && anySub agreement_keywords msg_lower

/-- Python `getSuggestedActivity`.  The source calls `analyze_user_needs` without
an hour, which makes it read `datetime.now().hour`; that wall-clock input
is the explicit parameter `now_hour`.  The Python function mutates the
(possibly freshly created) context; here the resulting context is returned
alongside the selection. -/
def getSuggestedActivity (emotionData : EmotionData) (userMessage : String)
    (userLanguage : String) (context : Option ConversationContext)
    (now_hour : ℕ) : Option FormattedActivity × ConversationContext :=
  let ctx := context.getD {}
  let needs := analyze_user_needs userMessage emotionData now_hour
  select_best_activity userMessage needs ctx userLanguage

/-! ## Helper lemmas -/

theorem clamp01_nonneg (x : ℚ) : 0 ≤ clamp01 x :=
  le_min (by norm_num) (le_max_left 0 x)

theorem clamp01_le_one (x : ℚ) : clamp01 x ≤ 1 :=
  min_le_left _ _

/-- Both branches of `was_recently_suggested` compute membership in the
last `window` entries: when the list is shorter than the window,
`drop (length - window)` is the whole list. -/
theorem was_recently_suggested_eq_lastWindow (ctx : ConversationContext) (i : String) :
    was_recently_suggested ctx i 3 =
      (ctx.suggested_activities.drop (ctx.suggested_activities.length - 3)).contains i := by
  unfold was_recently_suggested
  split
  · rename_i h
    rw [Nat.sub_eq_zero_of_le (le_of_lt h), List.drop_zero]
  · rfl

/-! ## C1: the tier-3 scoring formula -/

/-- Modelled from the spec's words (claim C1): the last 3 entries of
`suggestedActivities`. -/
def lastThree (l : List String) : List String := l.drop (l.length - 3)

/-- Modelled from the spec's words (claim C1): the tier-3 score as the spec
states it — the weighted needs/capability sum over the active dimensions,
then the urgency, early-turn, talking and recency modifiers, plus the base
priority, floored at 0. -/
def specTier3Score (activity : ActivityProfile) (needs : UserNeeds)
    (context : ConversationContext) : ℚ :=
  let total :=
    (if needs.need_calming > 0.3 then
      needs.need_calming * activity.provides_calming * 100 else 0)
    + (if needs.need_distraction > 0.3 then
      needs.need_distraction * activity.provides_distraction * 80 else 0)
    + (if needs.need_activation > 0.3 then
      needs.need_activation * activity.provides_activation * 70 else 0)
    + (if needs.need_processing > 0.3 then
      needs.need_processing * activity.provides_processing * 60 else 0)
  let afterUrgency := if needs.urgency > 0.6 then
    total * (1 + activity.immediacy * 0.5) - activity.commitment_level * 15 else total
  let afterTurn := if context.turn_count < 5 then
    afterUrgency - activity.commitment_level * 10 else afterUrgency
  let afterTalking := if needs.need_distraction > 0.7 ∧ activity.requires_talking then
    afterTurn - 20 else afterTurn
  let afterRecency := if activity.id ∈ lastThree context.suggested_activities then
    afterTalking - 30 else afterTalking
  max 0 (afterRecency + activity.base_priority)

/-- C1: for every activity profile, needs vector and conversation context,
`_calculate_match_score` computes exactly the spec's tier-3 formula: the
weighted sum over the dimensions with needs above the 0.3 dead-zone, the
urgency multiplier and commitment subtraction when urgency > 0.6, the
early-turn and talking penalties, the recency penalty over the last 3
suggested ids, plus the base priority, floored at 0. -/
theorem c1_match_score_formula (activity : ActivityProfile) (needs : UserNeeds)
    (context : ConversationContext) :
    calculate_match_score activity needs context = specTier3Score activity needs context := by
  simp only [calculate_match_score, specTier3Score, lastThree, zero_add,
    was_recently_suggested_eq_lastWindow, List.elem_eq_mem, decide_eq_true_eq,
    Bool.and_eq_true]

/-! ## C2: the clamp invariant of the needs aggregation -/

/-- C2: for every message, affect reading (any emotion label and energy,
including "refuse" and the disengagement signals whose increments are
negative) and hour of day, every dimension of the needs vector returned by
`analyze_user_needs` lies in [0,1]. -/
theorem c2_needs_clamped (user_message : String) (emotion_data : EmotionData)
    (current_hour : ℕ) :
    let n := analyze_user_needs user_message emotion_data current_hour
    (0 ≤ n.need_calming ∧ n.need_calming ≤ 1) ∧
    (0 ≤ n.need_distraction ∧ n.need_distraction ≤ 1) ∧
    (0 ≤ n.need_activation ∧ n.need_activation ≤ 1) ∧
    (0 ≤ n.need_processing ∧ n.need_processing ≤ 1) ∧
    (0 ≤ n.urgency ∧ n.urgency ≤ 1) :=
  ⟨⟨clamp01_nonneg _, clamp01_le_one _⟩, ⟨clamp01_nonneg _, clamp01_le_one _⟩,
   ⟨clamp01_nonneg _, clamp01_le_one _⟩, ⟨clamp01_nonneg _, clamp01_le_one _⟩,
   ⟨clamp01_nonneg _, clamp01_le_one _⟩⟩

/-! ## C3: explicit requests and the timing gate -/

/-- C3 counterexample: "nhạc" is an explicit activity keyword, yet at
`turnCount = 1` (the TooEarly state) `shouldSuggestActivity` returns
`false` — the TooEarly rule runs before the explicit-intent rule, so an
explicit request does not override it, contrary to the claim. -/
theorem c3_counterexample :
    anySub explicit_keywords (strLower "nhạc") = true ∧
    shouldSuggestActivity {} "nhạc" 1 "" none = false := by
  constructor
  · decide
  · decide

/-- C3 (amended): for every message containing an explicit activity
keyword, `shouldSuggestActivity` returns `true` regardless of session
exhaustion and of all other state — but only once `turnCount > 1`; in the
TooEarly state (`turnCount ≤ 1`) it returns `false` even for explicit
requests. -/
theorem c3_explicit_overrides_exhaustion (emotionData : EmotionData)
    (messageContent lastAssistantMessage : String) (turnCount : ℕ)
    (context : Option ConversationContext)
    (hturn : 1 < turnCount)
    (hkw : anySub explicit_keywords (strLower messageContent) = true) :
    shouldSuggestActivity emotionData messageContent turnCount lastAssistantMessage
      context = true := by
  unfold shouldSuggestActivity
  rw [if_neg (by omega : ¬ turnCount ≤ 1)]
  simp [hkw]

/-- C3 witness: with `turnCount = 2` and a session already exhausted, the
explicit "nhạc" request still yields `true`. -/
theorem c3_witness :
    (1 < 2 ∧ anySub explicit_keywords (strLower "nhạc") = true) ∧
    shouldSuggestActivity {} "nhạc" 2 "bot said"
      (some { has_suggested_in_session := true }) = true :=
  ⟨⟨by decide, by decide⟩,
   c3_explicit_overrides_exhaustion {} "nhạc" "bot said" 2
     (some { has_suggested_in_session := true }) (by decide) (by decide)⟩

/-! ## Frame lemmas for `select_best_activity` -/

/-- Every catalog entry's profile carries its own key as `id`. -/
theorem catalog_ids : ∀ p ∈ ACTIVITIES, p.2.id = p.1 := by decide

theorem find_snd_id (l : List (String × ActivityProfile))
    (hl : ∀ p ∈ l, p.2.id = p.1) (i : String) (a : ActivityProfile)
    (h : ((l.find? fun p => p.1 == i).map Prod.snd) = some a) : a.id = i := by
  induction l with
  | nil => simp [List.find?] at h
  | cons p t ih =>
    rw [List.find?_cons] at h
    by_cases hp : (p.1 == i) = true
    · rw [hp] at h
      simp only [Option.map_some] at h
      obtain rfl : p.2 = a := by injection h
      rw [hl p (List.mem_cons_self p t), eq_of_beq hp]
    · have hp' : (p.1 == i) = false := by simpa using hp
      rw [hp'] at h
      exact ih (fun q hq => hl q (List.mem_cons_of_mem p hq)) h

theorem lookupActivity_id (i : String) (a : ActivityProfile)
    (h : lookupActivity i = some a) : a.id = i :=
  find_snd_id ACTIVITIES catalog_ids i a h

/-- The loop over candidate ids appends exactly the id of the entry it
returns and sets the session flag; nothing else changes. -/
theorem suggestFirst_frame (ids : List String) (ctx : ConversationContext)
    (lang : String) (f : FormattedActivity) (c : ConversationContext)
    (h : suggestFirst ids ctx lang = some (f, c)) :
    c = { ctx with
          suggested_activities := ctx.suggested_activities ++ [f.activity_type],
          has_suggested_in_session := true } := by
  induction ids with
  | nil => simp [suggestFirst] at h
  | cons i rest ih =>
    rw [suggestFirst] at h
    cases hi : lookupActivity i with
    | some a =>
      rw [hi] at h
      obtain ⟨rfl, rfl⟩ : format_activity a lang = f ∧ add_suggestion ctx i = c := by
        constructor <;> [skip; skip] <;> injection h with h' <;> · injection h'
      have : (format_activity a lang).activity_type = i := lookupActivity_id i a hi
      rw [add_suggestion, this]
    | none =>
      rw [hi] at h
      exact ih h

theorem tier1_frame (m : String) (ctx : ConversationContext) (lang : String)
    (f : FormattedActivity) (c : ConversationContext)
    (h : tier1 m ctx lang = some (f, c)) :
    c = { ctx with
          suggested_activities := ctx.suggested_activities ++ [f.activity_type],
          has_suggested_in_session := true } := by
  unfold tier1 at h
  by_cases hag : anySub agreement_keywords m = true
  · rw [if_pos hag] at h
    simp only [] at h
    rcases (Option.orElse_eq_some' _ _ _).1 h with h1 | ⟨_, h2⟩
    · split at h1
      · exact suggestFirst_frame _ _ _ _ _ h1
      · simp at h1
    · rcases (Option.orElse_eq_some' _ _ _).1 h2 with h1 | ⟨_, h3⟩
      · split at h1
        · exact suggestFirst_frame _ _ _ _ _ h1
        · simp at h1
      · rcases (Option.orElse_eq_some' _ _ _).1 h3 with h1 | ⟨_, h4⟩
        · split at h1
          · exact suggestFirst_frame _ _ _ _ _ h1
          · simp at h1
        · split at h4
          · exact suggestFirst_frame _ _ _ _ _ h4
          · simp at h4
  · rw [if_neg hag] at h
    simp at h

theorem tier2_frame (m : String) (ctx : ConversationContext) (lang : String)
    (f : FormattedActivity) (c : ConversationContext)
    (h : tier2 m ctx lang = some (f, c)) :
    c = { ctx with
          suggested_activities := ctx.suggested_activities ++ [f.activity_type],
          has_suggested_in_session := true } := by
  unfold tier2 at h
  rcases (Option.orElse_eq_some' _ _ _).1 h with h1 | ⟨_, h2⟩
  · split at h1
    · exact suggestFirst_frame _ _ _ _ _ h1
    · simp at h1
  · rcases (Option.orElse_eq_some' _ _ _).1 h2 with h1 | ⟨_, h3⟩
    · split at h1
      · exact suggestFirst_frame _ _ _ _ _ h1
      · simp at h1
    · split at h3
      · exact suggestFirst_frame _ _ _ _ _ h3
      · simp at h3

theorem tier3_frame (needs : UserNeeds) (ctx : ConversationContext) (lang : String) :
    ((tier3 needs ctx lang).1 = none ∧ (tier3 needs ctx lang).2 = ctx) ∨
    (∃ f, (tier3 needs ctx lang).1 = some f ∧
      (tier3 needs ctx lang).2 =
        { ctx with
          suggested_activities := ctx.suggested_activities ++ [f.activity_type],
          has_suggested_in_session := true }) := by
  unfold tier3
  cases hp : pickBest (ACTIVITIES.filterMap fun p =>
      let score := calculate_match_score p.2 needs ctx
      if score > 0 then some (score, p.2) else none) with
  | none => left; simp [hp]
  | some best =>
    right
    exact ⟨format_activity best.2 lang, by simp [hp],
      by simp [hp, add_suggestion, format_activity]⟩

/-! ## C4: side effects of selection -/

/-- C4 counterexample: a tier-2 (explicit request) selection also sets
`has_suggested_in_session`, because `add_suggestion` is called on every
tier's selection — contrary to the claim that only tier-3 sets the flag.
On message "nhạc" tier-1 does not fire, tier-2 does, and the flag flips
from `false` to `true`. -/
theorem c4_counterexample :
    tier1 (strLower "nhạc") { turn_count := 3 } "vi" = none ∧
    (tier2 (strLower "nhạc") { turn_count := 3 } "vi").isSome = true ∧
    ({ turn_count := 3 } : ConversationContext).has_suggested_in_session = false ∧
    (select_best_activity "nhạc" {} { turn_count := 3 } "vi").2.has_suggested_in_session
      = true := by
  refine ⟨by decide, by decide, by decide, by decide⟩

/-- C4 (amended): on every non-`None` selection — at any tier, tier-1 and
tier-2 included — `select_best_activity` appends exactly the chosen
activity id to `suggested_activities` AND sets `has_suggested_in_session`
to `true`; on a `None` result the context is unchanged; `turn_count` and
`last_assistant_message` are never modified (the record update keeps
them). -/
theorem c4_selection_side_effects (msg : String) (needs : UserNeeds)
    (ctx : ConversationContext) (lang : String) :
    ((select_best_activity msg needs ctx lang).1 = none →
      (select_best_activity msg needs ctx lang).2 = ctx) ∧
    (∀ f, (select_best_activity msg needs ctx lang).1 = some f →
      (select_best_activity msg needs ctx lang).2 =
        { ctx with
          suggested_activities := ctx.suggested_activities ++ [f.activity_type],
          has_suggested_in_session := true }) := by
  unfold select_best_activity
  cases h1 : tier1 (strLower msg) ctx lang with
  | some fc =>
    obtain ⟨f0, c0⟩ := fc
    simp only [h1]
    refine ⟨by simp, ?_⟩
    intro f hf
    obtain rfl : f0 = f := by simpa using hf
    exact tier1_frame _ _ _ _ _ h1
  | none =>
    simp only [h1]
    cases h2 : tier2 (strLower msg) ctx lang with
    | some fc =>
      obtain ⟨f0, c0⟩ := fc
      simp only [h2]
      refine ⟨by simp, ?_⟩
      intro f hf
      obtain rfl : f0 = f := by simpa using hf
      exact tier2_frame _ _ _ _ _ h2
    | none =>
      simp only [h2]
      rcases tier3_frame needs ctx lang with ⟨ha, hb⟩ | ⟨f0, ha, hb⟩
      · exact ⟨fun _ => hb, fun f hf => absurd (ha ▸ hf) (by simp)⟩
      · refine ⟨fun hn => absurd (ha ▸ hn) (by simp [ha]), ?_⟩
        intro f hf
        rw [ha] at hf
        obtain rfl : f0 = f := by injection hf
        exact hb

/-- C4 witness: on the tier-2 selection for "nhạc", the resulting context
is exactly the input context with the chosen id appended and the session
flag set. -/
theorem c4_witness :
    (select_best_activity "nhạc" {} { turn_count := 3 } "vi").1 =
      some (format_activity healingStudioActivity "vi") ∧
    (select_best_activity "nhạc" {} { turn_count := 3 } "vi").2 =
      { turn_count := 3, last_assistant_message := ""
        suggested_activities := ["healing_studio"], has_suggested_in_session := true } :=
  ⟨by decide,
   (c4_selection_side_effects "nhạc" {} { turn_count := 3 } "vi").2
     (format_activity healingStudioActivity "vi") (by decide)⟩

/-! ## C5: tier-2 explicit requests -/

set_option maxRecDepth 10000 in
/-- C5 counterexample: "liệu trình" matches the `ROUTINE` explicit-intent
pattern, but `select_best_activity` never consults that pattern at tier-2:
the message falls through to need-based scoring and (here, with zero
needs) returns no selection instead of the routine-domain entry. -/
theorem c5_counterexample :
    reSearch ROUTINE (strLower "liệu trình") = true ∧
    select_best_activity "liệu trình" {} { turn_count := 3 } "vi" =
      (none, { turn_count := 3 }) := by
  refine ⟨by decide, by with_unfolding_all rfl⟩

theorem suggestFirst_music_eval (ctx : ConversationContext) (lang : String) :
    suggestFirst ["healing_studio", "rest_sounds"] ctx lang =
      some (format_activity healingStudioActivity lang,
        add_suggestion ctx "healing_studio") := rfl

theorem suggestFirst_breathing_eval (ctx : ConversationContext) (lang : String) :
    suggestFirst ["breathing", "release_stress"] ctx lang =
      some (format_activity breathingActivity lang, add_suggestion ctx "breathing") := rfl

theorem suggestFirst_journaling_eval (ctx : ConversationContext) (lang : String) :
    suggestFirst ["journaling"] ctx lang =
      some (format_activity journalingActivity lang, add_suggestion ctx "journaling") := rfl

/-- C5 (amended): when tier-1 continuation-of-offer does not fire (it
returns none — whether because the message has no agreement token or
because the previous assistant message names no activity domain), a
message matching the MUSIC pattern selects the music domain's best entry
(healing_studio) at tier-2 bypassing scoring, BREATHING selects breathing,
JOURNALING selects journaling — but the explicit-intent ROUTINE pattern is
never consulted: when the three checked patterns fail, the selection is
need-based scoring (tier-3) even if the message matches ROUTINE
(e.g. "liệu trình"). -/
theorem c5_tier2_request (msg : String) (needs : UserNeeds)
    (ctx : ConversationContext) (lang : String)
    (ht1 : tier1 (strLower msg) ctx lang = none) :
    (reSearch MUSIC (strLower msg) = true →
      select_best_activity msg needs ctx lang =
        (some (format_activity healingStudioActivity lang),
          add_suggestion ctx "healing_studio")) ∧
    (reSearch MUSIC (strLower msg) = false → reSearch BREATHING (strLower msg) = true →
      select_best_activity msg needs ctx lang =
        (some (format_activity breathingActivity lang), add_suggestion ctx "breathing")) ∧
    (reSearch MUSIC (strLower msg) = false → reSearch BREATHING (strLower msg) = false →
      reSearch JOURNALING (strLower msg) = true →
      select_best_activity msg needs ctx lang =
        (some (format_activity journalingActivity lang), add_suggestion ctx "journaling")) ∧
    (reSearch MUSIC (strLower msg) = false → reSearch BREATHING (strLower msg) = false →
      reSearch JOURNALING (strLower msg) = false →
      select_best_activity msg needs ctx lang = tier3 needs ctx lang) := by
  refine ⟨?_, ?_, ?_, ?_⟩
  · intro hm
    simp only [select_best_activity, ht1]
    unfold tier2
    rw [hm, suggestFirst_music_eval]
    rfl
  · intro hm hb
    simp only [select_best_activity, ht1]
    unfold tier2
    rw [hm, hb, suggestFirst_breathing_eval]
    rfl
  · intro hm hb hj
    simp only [select_best_activity, ht1]
    unfold tier2
    rw [hm, hb, hj, suggestFirst_journaling_eval]
    rfl
  · intro hm hb hj
    simp only [select_best_activity, ht1]
    unfold tier2
    rw [hm, hb, hj]
    rfl

/-- C5 witness: "có nhạc" carries the agreement token "có", yet against a
context whose previous assistant message names no domain, tier-1 returns
none and the MUSIC pattern selects healing_studio at tier-2, bypassing
scoring. -/
theorem c5_witness :
    (tier1 (strLower "có nhạc") { turn_count := 3 } "vi" = none ∧
      anySub agreement_keywords (strLower "có nhạc") = true ∧
      reSearch MUSIC (strLower "có nhạc") = true) ∧
    select_best_activity "có nhạc" {} { turn_count := 3 } "vi" =
      (some (format_activity healingStudioActivity "vi"),
        add_suggestion { turn_count := 3 } "healing_studio") :=
  ⟨⟨by decide, by decide, by decide⟩,
   (c5_tier2_request "có nhạc" {} { turn_count := 3 } "vi" (by decide)).1 (by decide)⟩

/-! ## C6: the empty-message edge case -/

set_option maxRecDepth 10000 in
/-- C6 counterexample: the empty message with neutral affect does yield the
all-zero needs vector, but with that vector tier-3 does NOT return `None`
for every context: on a fresh context at `turn_count = 5` the early-turn
penalty vanishes, each entry scores its positive `base_priority`, and
breathing is selected. -/
theorem c6_counterexample :
    analyze_user_needs "" ⟨"neutral", 5⟩ 12 = ({} : UserNeeds) ∧
    (select_best_activity "" ({} : UserNeeds) { turn_count := 5 } "vi").1 =
      some (format_activity breathingActivity "vi") := by
  refine ⟨by with_unfolding_all rfl, by with_unfolding_all rfl⟩

/-- With the all-zero needs vector and an early turn, every activity scores
0: the four weighted terms are absent, the early-turn penalty removes at
least the base priority, and the floor takes the score to 0. -/
theorem zero_needs_score (a : ActivityProfile) (ctx : ConversationContext)
    (h : ctx.turn_count < 5)
    (hb : (a.base_priority : ℚ) ≤ (a.commitment_level : ℚ) * 10) :
    calculate_match_score a ({} : UserNeeds) ctx = 0 := by
  have hzc : ¬ (({} : UserNeeds).need_calming > 0.3) := by
    show ¬ ((0 : ℚ) > 0.3); norm_num
  have hzd : ¬ (({} : UserNeeds).need_distraction > 0.3) := by
    show ¬ ((0 : ℚ) > 0.3); norm_num
  have hza : ¬ (({} : UserNeeds).need_activation > 0.3) := by
    show ¬ ((0 : ℚ) > 0.3); norm_num
  have hzp : ¬ (({} : UserNeeds).need_processing > 0.3) := by
    show ¬ ((0 : ℚ) > 0.3); norm_num
  have hzu : ¬ (({} : UserNeeds).urgency > 0.6) := by
    show ¬ ((0 : ℚ) > 0.6); norm_num
  have htalk : ¬ ((decide (({} : UserNeeds).need_distraction > 0.7)
      && a.requires_talking) = true) := by
    have hd : decide (({} : UserNeeds).need_distraction > 0.7) = false := by
      with_unfolding_all rfl
    simp [hd]
  simp only [calculate_match_score]
  rw [if_neg hzc, if_neg hzd, if_neg hza, if_neg hzp, if_neg hzu, if_pos h, if_neg htalk]
  rcases Bool.eq_false_or_eq_true (was_recently_suggested ctx a.id 3) with hw | hw
  · rw [if_pos hw]
    exact max_eq_left (by linarith)
  · rw [if_neg (by simp [hw])]
    exact max_eq_left (by linarith)

/-- C6 (amended): an empty message with neutral affect yields the all-zero
needs vector at every hour; with that vector `select_best_activity`
returns `None` and leaves the context unchanged for every context whose
`turn_count` is below 5.  The claim's "for every conversation context"
fails only beyond that: a selection can occur at `turn_count ≥ 5`, as the
counterexample's fresh context at turn 5 (where breathing is picked)
shows. -/
theorem c6_empty_neutral (current_hour : ℕ) (ctx : ConversationContext) (lang : String) :
    analyze_user_needs "" ⟨"neutral", 5⟩ current_hour = ({} : UserNeeds) ∧
    (ctx.turn_count < 5 →
      select_best_activity "" ({} : UserNeeds) ctx lang = (none, ctx)) := by
  constructor
  · unfold analyze_user_needs
    rcases Bool.eq_false_or_eq_true
        (decide (22 ≤ current_hour) || decide (current_hour ≤ 6)) with hb | hb <;>
      rw [hb] <;> with_unfolding_all rfl
  · intro h
    have ht1 : tier1 (strLower "") ctx lang = none := by
      unfold tier1
      rw [if_neg (by decide)]
    have ht2 : tier2 (strLower "") ctx lang = none := by
      unfold tier2
      rw [if_neg (by decide), if_neg (by decide), if_neg (by decide)]
      rfl
    have hs : ∀ p ∈ ACTIVITIES, ¬ (calculate_match_score p.2 ({} : UserNeeds) ctx > 0) := by
      intro p hp
      rw [zero_needs_score p.2 ctx h (by
        fin_cases hp <;>
          norm_num [breathingActivity, releaseStressActivity, restSoundsActivity,
            healingStudioActivity, healingRoutineActivity, journalingActivity])]
      norm_num
    have hfm : (ACTIVITIES.filterMap fun p =>
        let score := calculate_match_score p.2 ({} : UserNeeds) ctx
        if score > 0 then some (score, p.2) else none) = [] := by
      rw [List.filterMap_eq_nil_iff]
      intro p hp
      simp only []
      rw [if_neg (hs p hp)]
    simp only [select_best_activity, ht1, ht2]
    unfold tier3
    rw [hfm]
    rfl

/-- C6 witness: at `turn_count = 3` (< 5) the zero-needs selection is
`None` and the context is untouched. -/
theorem c6_witness :
    (({ turn_count := 3 } : ConversationContext).turn_count < 5) ∧
    select_best_activity "" ({} : UserNeeds) { turn_count := 3 } "vi" =
      (none, { turn_count := 3 }) :=
  ⟨by decide, (c6_empty_neutral 12 { turn_count := 3 } "vi").2 (by decide)⟩

/-! ## C7: determinism of `getSuggestedActivity` -/

set_option maxRecDepth 10000 in
/-- C7 counterexample: `getSuggestedActivity` is NOT a pure function of
(message, affect, language, context): it also reads the wall clock.  The
same inputs yield healing_routine when called at hour 12 but breathing at
hour 23, because the night window adds calming and pushes urgency over the
0.6 threshold. -/
theorem c7_counterexample :
    (getSuggestedActivity ⟨"angry", 7⟩ "mất ngủ deadline" "vi"
        (some { turn_count := 5 }) 12).1 =
      some (format_activity healingRoutineActivity "vi") ∧
    (getSuggestedActivity ⟨"angry", 7⟩ "mất ngủ deadline" "vi"
        (some { turn_count := 5 }) 23).1 =
      some (format_activity breathingActivity "vi") := by
  refine ⟨by with_unfolding_all rfl, by with_unfolding_all rfl⟩

/-- C7 (amended): `getSuggestedActivity` is deterministic given its inputs
AND the wall-clock hour, and its dependence on the clock is confined to
the night-window test: two calls with identical inputs whose hours fall on
the same side of the window (22:00–06:00) return identical selections and
identical resulting contexts. -/
theorem c7_determinism_given_hour (emotionData : EmotionData)
    (userMessage userLanguage : String) (context : Option ConversationContext)
    (h1 h2 : ℕ) (hween : (22 ≤ h1 ∨ h1 ≤ 6) ↔ (22 ≤ h2 ∨ h2 ≤ 6)) :
    getSuggestedActivity emotionData userMessage userLanguage context h1 =
      getSuggestedActivity emotionData userMessage userLanguage context h2 := by
  have hb : (decide (22 ≤ h1) || decide (h1 ≤ 6)) = (decide (22 ≤ h2) || decide (h2 ≤ 6)) := by
    rw [← Bool.decide_or, ← Bool.decide_or]
    exact decide_eq_decide.mpr hween
  unfold getSuggestedActivity analyze_user_needs
  rw [hb]

/-- C7 witness: two daytime hours (9 and 12) give the same result. -/
theorem c7_witness :
    ((22 ≤ 9 ∨ 9 ≤ 6) ↔ (22 ≤ 12 ∨ 12 ≤ 6)) ∧
    getSuggestedActivity ⟨"angry", 7⟩ "mất ngủ deadline" "vi"
        (some { turn_count := 5 }) 9 =
      getSuggestedActivity ⟨"angry", 7⟩ "mất ngủ deadline" "vi"
        (some { turn_count := 5 }) 12 :=
  ⟨by decide,
   c7_determinism_given_hour ⟨"angry", 7⟩ "mất ngủ deadline" "vi"
     (some { turn_count := 5 }) 9 12 (by decide)⟩

/-! ## C8: session exhaustion after a tier-3 selection -/

/-- Any non-`None` tier-3 selection leaves the flag set. -/
theorem tier3_some_sets_flag (needs : UserNeeds) (ctx : ConversationContext)
    (lang : String) (f : FormattedActivity) (ctx' : ConversationContext)
    (h : tier3 needs ctx lang = (some f, ctx')) :
    ctx'.has_suggested_in_session = true := by
  rcases tier3_frame needs ctx lang with ⟨ha, _⟩ | ⟨f0, _, hb⟩
  · rw [h] at ha
    simp at ha
  · rw [h] at hb
    have hb' : ctx' = { ctx with
        suggested_activities := ctx.suggested_activities ++ [f0.activity_type],
        has_suggested_in_session := true } := hb
    rw [hb']

/-- C8: once `select_best_activity` produces a non-`None` result through
tier-3 need-based scoring (tiers 1 and 2 not firing), every subsequent
`shouldSuggestActivity` call against the resulting context with a
non-explicit message returns `false` — for every turn count above 1, every
affect reading, and every invitation/agreement content (the exhaustion
rule runs before the invitation-agreement rule). -/
theorem c8_session_exhaustion (msg : String) (needs : UserNeeds)
    (ctx : ConversationContext) (lang : String) (f : FormattedActivity)
    (ctx' : ConversationContext) (emo : EmotionData) (msg2 lastMsg : String)
    (turnCount : ℕ)
    (ht1 : tier1 (strLower msg) ctx lang = none)
    (ht2 : tier2 (strLower msg) ctx lang = none)
    (hsel : select_best_activity msg needs ctx lang = (some f, ctx'))
    (hexp : anySub explicit_keywords (strLower msg2) = false)
    (hturn : 1 < turnCount) :
    shouldSuggestActivity emo msg2 turnCount lastMsg (some ctx') = false := by
  have h3 : tier3 needs ctx lang = (some f, ctx') := by
    rw [← hsel]
    simp only [select_best_activity, ht1, ht2]
  have hflag : ctx'.has_suggested_in_session = true :=
    tier3_some_sets_flag needs ctx lang f ctx' h3
  unfold shouldSuggestActivity
  rw [if_neg (by omega : ¬ turnCount ≤ 1)]
  simp [hexp, hflag]

/-- C8 witness: the zero-needs tier-3 selection at turn 5 picks breathing
and exhausts the session: a later non-explicit "hello" is gated off even
though the last assistant message carries an invitation and the turn count
is above 1. -/
theorem c8_witness :
    (tier1 (strLower "") { turn_count := 5 } "vi" = none ∧
      tier2 (strLower "") { turn_count := 5 } "vi" = none ∧
      select_best_activity "" ({} : UserNeeds) { turn_count := 5 } "vi" =
        (some (format_activity breathingActivity "vi"),
          { turn_count := 5, last_assistant_message := ""
            suggested_activities := ["breathing"], has_suggested_in_session := true }) ∧
      anySub explicit_keywords (strLower "hello") = false ∧ 1 < 6) ∧
    shouldSuggestActivity {} "hello" 6 "bạn có muốn thử không"
      (some { turn_count := 5, last_assistant_message := ""
              suggested_activities := ["breathing"], has_suggested_in_session := true })
      = false := by
  refine ⟨⟨by decide, by decide, by with_unfolding_all rfl, by decide, by decide⟩, ?_⟩
  exact c8_session_exhaustion "" {} { turn_count := 5 } "vi"
    (format_activity breathingActivity "vi")
    { turn_count := 5, last_assistant_message := ""
      suggested_activities := ["breathing"], has_suggested_in_session := true }
    {} "hello" "bạn có muốn thử không" 6
    (by decide) (by decide) (by with_unfolding_all rfl) (by decide) (by decide)

/-! ## C9: recency suppression -/

theorem max_zero_sub_thirty_lt {x : ℚ} (hx : 0 < max 0 x) :
    max 0 (x - 30) < max 0 x := by
  have hxpos : 0 < x := by
    rcases le_or_lt x 0 with h | h
    · rw [max_eq_left h] at hx
      exact absurd hx (lt_irrefl 0)
    · exact h
  rw [max_eq_right hxpos.le]
  rcases le_or_lt (x - 30) 0 with h | h
  · rw [max_eq_left h]
    exact hxpos
  · rw [max_eq_right h.le]
    linarith

/-- The part of `_calculate_match_score` before the recency penalty and
base priority: the four weighted terms plus the urgency, early-turn and
talking modifiers. -/
def rawScore (activity : ActivityProfile) (needs : UserNeeds)
    (context : ConversationContext) : ℚ :=
  let s0 : ℚ := 0
  let s1 := s0 + (if needs.need_calming > 0.3 then
    needs.need_calming * activity.provides_calming * 100 else 0)
  let s2 := s1 + (if needs.need_distraction > 0.3 then
    needs.need_distraction * activity.provides_distraction * 80 else 0)
  let s3 := s2 + (if needs.need_activation > 0.3 then
    needs.need_activation * activity.provides_activation * 70 else 0)
  let s4 := s3 + (if needs.need_processing > 0.3 then
    needs.need_processing * activity.provides_processing * 60 else 0)
  let s5 := if needs.urgency > 0.6 then
    s4 * (1 + activity.immediacy * 0.5) - activity.commitment_level * 15 else s4
  let s6 := if context.turn_count < 5 then s5 - activity.commitment_level * 10 else s5
  if needs.need_distraction > 0.7 && activity.requires_talking then s6 - 20 else s6

theorem score_split (activity : ActivityProfile) (needs : UserNeeds)
    (context : ConversationContext) :
    calculate_match_score activity needs context =
      max 0 ((if was_recently_suggested context activity.id 3 then
        rawScore activity needs context - 30 else rawScore activity needs context)
        + activity.base_priority) := rfl

theorem rawScore_congr (A B : ActivityProfile) (needs : UserNeeds)
    (ctx : ConversationContext)
    (e1 : A.provides_calming = B.provides_calming)
    (e2 : A.provides_distraction = B.provides_distraction)
    (e3 : A.provides_activation = B.provides_activation)
    (e4 : A.provides_processing = B.provides_processing)
    (e5 : A.commitment_level = B.commitment_level)
    (e6 : A.immediacy = B.immediacy)
    (e7 : A.requires_talking = B.requires_talking) :
    rawScore A needs ctx = rawScore B needs ctx := by
  simp only [rawScore]
  rw [e1, e2, e3, e4, e5, e6, e7]

/-- C9: if activity A was recently suggested (its id is in the last 3
entries of `suggested_activities`) and B is an otherwise-equal competitor
(same capability vector, commitment, immediacy, talking requirement and
base priority) that was not, then whenever B's floored score is positive,
A's score is strictly below B's — so A can never win tier-3 scoring over
B. -/
theorem c9_recency_suppression (needs : UserNeeds) (ctx : ConversationContext)
    (A B : ActivityProfile)
    (e1 : A.provides_calming = B.provides_calming)
    (e2 : A.provides_distraction = B.provides_distraction)
    (e3 : A.provides_activation = B.provides_activation)
    (e4 : A.provides_processing = B.provides_processing)
    (e5 : A.commitment_level = B.commitment_level)
    (e6 : A.immediacy = B.immediacy)
    (e7 : A.requires_talking = B.requires_talking)
    (e8 : A.base_priority = B.base_priority)
    (hA : was_recently_suggested ctx A.id 3 = true)
    (hB : was_recently_suggested ctx B.id 3 = false)
    (hpos : 0 < calculate_match_score B needs ctx) :
    calculate_match_score A needs ctx < calculate_match_score B needs ctx := by
  rw [score_split A needs ctx, score_split B needs ctx, if_pos hA,
    if_neg (by simp [hB] : ¬ was_recently_suggested ctx B.id 3 = true),
    rawScore_congr A B needs ctx e1 e2 e3 e4 e5 e6 e7, e8]
  rw [score_split B needs ctx, if_neg
    (by simp [hB] : ¬ was_recently_suggested ctx B.id 3 = true)] at hpos
  rw [show rawScore B needs ctx - 30 + (B.base_priority : ℚ)
      = (rawScore B needs ctx + (B.base_priority : ℚ)) - 30 from by ring]
  exact max_zero_sub_thirty_lt hpos

/-- C9 witness: rest_sounds was just suggested; an otherwise-identical
competitor with a fresh id scores 48 while rest_sounds scores 18. -/
theorem c9_witness :
    (was_recently_suggested
        { turn_count := 5, suggested_activities := ["rest_sounds"] }
        restSoundsActivity.id 3 = true ∧
      was_recently_suggested
        { turn_count := 5, suggested_activities := ["rest_sounds"] }
        ({ restSoundsActivity with id := "other" } : ActivityProfile).id 3 = false ∧
      0 < calculate_match_score { restSoundsActivity with id := "other" }
        ⟨0.5, 0, 0, 0, 0⟩ { turn_count := 5, suggested_activities := ["rest_sounds"] }) ∧
    calculate_match_score restSoundsActivity ⟨0.5, 0, 0, 0, 0⟩
        { turn_count := 5, suggested_activities := ["rest_sounds"] } <
      calculate_match_score { restSoundsActivity with id := "other" }
        ⟨0.5, 0, 0, 0, 0⟩ { turn_count := 5, suggested_activities := ["rest_sounds"] } := by
  refine ⟨⟨by decide, by decide, of_decide_eq_true (by with_unfolding_all rfl)⟩, ?_⟩
  exact c9_recency_suppression ⟨0.5, 0, 0, 0, 0⟩
    { turn_count := 5, suggested_activities := ["rest_sounds"] }
    restSoundsActivity { restSoundsActivity with id := "other" }
    rfl rfl rfl rfl rfl rfl rfl rfl
    (by decide) (by decide) (of_decide_eq_true (by with_unfolding_all rfl))

/-! ## C10: deterministic tie-breaking in tier-3 -/

theorem pickBest_foldl_keep :
    ∀ (l : List (ℚ × ActivityProfile)) (b : ℚ × ActivityProfile),
      (∀ y ∈ l, y.1 ≤ b.1) →
      l.foldl (fun b y => if y.1 > b.1 then y else b) b = b := by
  intro l
  induction l with
  | nil => intro b _; rfl
  | cons y t ih =>
    intro b h
    rw [List.foldl_cons, if_neg (not_lt.mpr (h y (List.mem_cons_self y t)))]
    exact ih b fun z hz => h z (List.mem_cons_of_mem y hz)

theorem pickBest_foldl_skip :
    ∀ (l1 : List (ℚ × ActivityProfile)) (x : ℚ × ActivityProfile)
      (l2 : List (ℚ × ActivityProfile)) (b : ℚ × ActivityProfile),
      b.1 < x.1 → (∀ y ∈ l1, y.1 < x.1) →
      (l1 ++ x :: l2).foldl (fun b y => if y.1 > b.1 then y else b) b =
        l2.foldl (fun b y => if y.1 > b.1 then y else b) x := by
  intro l1
  induction l1 with
  | nil =>
    intro x l2 b hb _
    rw [List.nil_append, List.foldl_cons, if_pos hb]
  | cons y t ih =>
    intro x l2 b hb h
    rw [List.cons_append, List.foldl_cons]
    by_cases hc : y.1 > b.1
    · rw [if_pos hc]
      exact ih x l2 y (h y (List.mem_cons_self y t))
        fun z hz => h z (List.mem_cons_of_mem y hz)
    · rw [if_neg hc]
      exact ih x l2 b hb fun z hz => h z (List.mem_cons_of_mem y hz)

/-- The head of the stable descending sort is the first element attaining
the maximum: everything before it strictly smaller, everything after it no
larger. -/
theorem pickBest_first_max (l1 : List (ℚ × ActivityProfile))
    (x : ℚ × ActivityProfile) (l2 : List (ℚ × ActivityProfile))
    (h1 : ∀ y ∈ l1, y.1 < x.1) (h2 : ∀ y ∈ l2, y.1 ≤ x.1) :
    pickBest (l1 ++ x :: l2) = some x := by
  cases l1 with
  | nil =>
    show pickBest (x :: l2) = some x
    simp only [pickBest]
    rw [pickBest_foldl_keep l2 x h2]
  | cons y t =>
    show pickBest (y :: (t ++ x :: l2)) = some x
    simp only [pickBest]
    rw [pickBest_foldl_skip t x l2 y (h1 y (List.mem_cons_self y t))
      fun z hz => h1 z (List.mem_cons_of_mem y hz)]
    rw [pickBest_foldl_keep l2 x h2]

/-- C10: in tier-3, when two catalog entries (position `i` before position
`j` in declaration order) attain the same maximal positive score, the
stable descending sort puts the earlier-declared one first, so
`select_best_activity` returns entry `i` and appends its id: ties are
broken deterministically by catalog declaration order. -/
theorem c10_tie_broken_by_catalog_order (needs : UserNeeds)
    (ctx : ConversationContext) (lang : String) (i j : ℕ)
    (hi : i < ACTIVITIES.length) (hj : j < ACTIVITIES.length) (hij : i < j)
    (htie : calculate_match_score (ACTIVITIES.get ⟨j, hj⟩).2 needs ctx =
      calculate_match_score (ACTIVITIES.get ⟨i, hi⟩).2 needs ctx)
    (hpos : 0 < calculate_match_score (ACTIVITIES.get ⟨i, hi⟩).2 needs ctx)
    (hbefore : ∀ p ∈ ACTIVITIES.take i,
      calculate_match_score p.2 needs ctx <
        calculate_match_score (ACTIVITIES.get ⟨i, hi⟩).2 needs ctx)
    (hmax : ∀ p ∈ ACTIVITIES,
      calculate_match_score p.2 needs ctx ≤
        calculate_match_score (ACTIVITIES.get ⟨i, hi⟩).2 needs ctx) :
    tier3 needs ctx lang =
      (some (format_activity (ACTIVITIES.get ⟨i, hi⟩).2 lang),
        add_suggestion ctx (ACTIVITIES.get ⟨i, hi⟩).2.id) := by
  have hsplit : ACTIVITIES =
      ACTIVITIES.take i ++ ACTIVITIES.get ⟨i, hi⟩ :: ACTIVITIES.drop (i + 1) := by
    conv_lhs => rw [← List.take_append_drop i ACTIVITIES]
    rw [List.drop_eq_getElem_cons hi]
    rfl
  have hfm : (ACTIVITIES.filterMap fun p =>
        let score := calculate_match_score p.2 needs ctx
        if score > 0 then some (score, p.2) else none) =
      ((ACTIVITIES.take i).filterMap fun p =>
        let score := calculate_match_score p.2 needs ctx
        if score > 0 then some (score, p.2) else none) ++
      (calculate_match_score (ACTIVITIES.get ⟨i, hi⟩).2 needs ctx,
        (ACTIVITIES.get ⟨i, hi⟩).2) ::
      ((ACTIVITIES.drop (i + 1)).filterMap fun p =>
        let score := calculate_match_score p.2 needs ctx
        if score > 0 then some (score, p.2) else none) := by
    conv_lhs => rw [hsplit]
    rw [List.filterMap_append, List.filterMap_cons]
    rw [show (if calculate_match_score (ACTIVITIES.get ⟨i, hi⟩).2 needs ctx > 0 then
        some (calculate_match_score (ACTIVITIES.get ⟨i, hi⟩).2 needs ctx,
          (ACTIVITIES.get ⟨i, hi⟩).2) else none) =
        some (calculate_match_score (ACTIVITIES.get ⟨i, hi⟩).2 needs ctx,
          (ACTIVITIES.get ⟨i, hi⟩).2) from if_pos hpos]
  show (match pickBest (ACTIVITIES.filterMap fun p =>
        let score := calculate_match_score p.2 needs ctx
        if score > 0 then some (score, p.2) else none) with
      | none => ((none : Option FormattedActivity), ctx)
      | some best => (some (format_activity best.2 lang), add_suggestion ctx best.2.id)) =
    (some (format_activity (ACTIVITIES.get ⟨i, hi⟩).2 lang),
      add_suggestion ctx (ACTIVITIES.get ⟨i, hi⟩).2.id)
  rw [hfm, pickBest_first_max _ _ _ ?_ ?_]
  · intro y hy
    rcases List.mem_filterMap.1 hy with ⟨p, hp, hfp⟩
    simp only [] at hfp
    by_cases hc : calculate_match_score p.2 needs ctx > 0
    · rw [if_pos hc] at hfp
      obtain rfl := Option.some.inj hfp
      exact hbefore p hp
    · rw [if_neg hc] at hfp
      exact absurd hfp (by simp)
  · intro y hy
    rcases List.mem_filterMap.1 hy with ⟨p, hp, hfp⟩
    simp only [] at hfp
    by_cases hc : calculate_match_score p.2 needs ctx > 0
    · rw [if_pos hc] at hfp
      obtain rfl := Option.some.inj hfp
      exact hmax p (List.drop_subset (i + 1) ACTIVITIES hp)
    · rw [if_neg hc] at hfp
      exact absurd hfp (by simp)

set_option maxRecDepth 10000 in
set_option maxHeartbeats 2000000 in
/-- C10 witness: with needs (calming 0.5, distraction 0.75), rest_sounds
(catalog position 2) and healing_studio (position 3) tie at the maximal
score 90, and tier-3 picks rest_sounds, the earlier declaration. -/
theorem c10_witness :
    (2 < 3 ∧
      calculate_match_score healingStudioActivity ⟨0.5, 0.75, 0, 0, 0⟩
          { turn_count := 5 } =
        calculate_match_score restSoundsActivity ⟨0.5, 0.75, 0, 0, 0⟩
          { turn_count := 5 } ∧
      0 < calculate_match_score restSoundsActivity ⟨0.5, 0.75, 0, 0, 0⟩
          { turn_count := 5 }) ∧
    tier3 ⟨0.5, 0.75, 0, 0, 0⟩ { turn_count := 5 } "vi" =
      (some (format_activity restSoundsActivity "vi"),
        add_suggestion { turn_count := 5 } "rest_sounds") := by
  refine ⟨⟨by decide, of_decide_eq_true (by with_unfolding_all rfl),
    of_decide_eq_true (by with_unfolding_all rfl)⟩, ?_⟩
  exact c10_tie_broken_by_catalog_order ⟨0.5, 0.75, 0, 0, 0⟩ { turn_count := 5 } "vi"
    2 3 (by decide) (by decide) (by decide)
    (of_decide_eq_true (by with_unfolding_all rfl))
    (of_decide_eq_true (by with_unfolding_all rfl))
    (of_decide_eq_true (by with_unfolding_all rfl))
    (of_decide_eq_true (by with_unfolding_all rfl))

end ZenApp
